import Mathlib

/-!
Verification of the mvt-description data-collection front end.

Shallow embedding of the repository's core components:
* `GoogleSheetsService` (src/unnamed/part_004): retry wrapper `withRetry`, the
  four remote store operations, the row finder `findRows`/`findRow`, and the
  row/object transforms `transformRowToObject` / `transformObjectToRow`.
* `TutorialStepManager` (src/js/tutorialStepManager.js): the tutorial step
  sequencer state machine.
* `BubblePositioner` (src/unnamed/part_006): candidate placement selection and
  viewport clamping.
* `SurveyApp` (src/js/surveyApp.js) with `ValidationUtils`
  (src/unnamed/part_009): the response-record save pipeline
  `saveOnomatopoeia` and the no-description path `handleNoOnomatopoeia`.

JavaScript dynamic values are modelled by the inductive `JVal`
(strings, finite numbers as rationals, NaN, null, undefined); machine floats
are modelled as rationals, which is exact for the decimal literals and the
arithmetic (+, -, /2, min, max, comparisons) these components perform.
`parseFloat` / `parseInt` / `ToNumber` are modelled on the fragment of inputs
the program produces: optional whitespace, optional sign, decimal digits with
an optional fraction part (no exponents or hex, which never occur here).
-/

/-- Model of a JavaScript value as it occurs in this program: a string, a
finite number (as an exact rational), NaN, null, or undefined. -/
inductive JVal where
  | str (s : String)
  | num (q : ℚ)
  | nan
  | nullv
  | undef
deriving DecidableEq

/-- JavaScript truthiness for `JVal` (`""`, `0`, `NaN`, `null`, `undefined`
are falsy). -/
def jsTruthy : JVal → Bool
  | .str s => s ≠ ""
  | .num q => q ≠ 0
  | .nan => false
  | .nullv => false
  | .undef => false

/-- ASCII lower-casing of one character (the strings this program lowers
and trims are ASCII, so this matches `toLowerCase`). -/
def charLowerJS (c : Char) : Char :=
  if 'A' ≤ c && c ≤ 'Z' then Char.ofNat (c.toNat + 32) else c

/-- `String.prototype.toLowerCase` on the ASCII strings of this program. -/
def toLowerJS (s : String) : String :=
  ⟨s.data.map charLowerJS⟩

/-- `String.prototype.trim`: strip whitespace from both ends. -/
def trimJS (s : String) : String :=
  ⟨((s.data.dropWhile (fun c => c.isWhitespace)).reverse.dropWhile
      (fun c => c.isWhitespace)).reverse⟩

/-- Numeric value of a list of decimal digit characters. -/
def digitsVal (ds : List Char) : ℕ :=
  ds.foldl (fun a c => 10 * a + (c.toNat - 48)) 0

/-- Split an optional leading sign off a character list, returning the sign
as a rational factor. -/
def splitSign : List Char → ℚ × List Char
  | '-' :: t => (-1, t)
  | '+' :: t => (1, t)
  | cs => (1, cs)

/-- Model of JavaScript `parseFloat` on the string fragment this program
produces: skip leading whitespace, optional sign, then the longest prefix
`digits [. digits]`; `none` models NaN (no digits at all, e.g. on "null"). -/
def parseFloatJS (s : String) : Option ℚ :=
  let cs := s.data.dropWhile (fun c => c.isWhitespace)
  let p := splitSign cs
  let ip := p.2.takeWhile (fun c => c.isDigit)
  let r1 := p.2.dropWhile (fun c => c.isDigit)
  let fp := match r1 with
    | '.' :: t => t.takeWhile (fun c => c.isDigit)
    | _ => []
  if ip.isEmpty && fp.isEmpty then none
  else some (p.1 * ((digitsVal ip : ℚ) + (digitsVal fp : ℚ) / (10 : ℚ) ^ fp.length))

/-- Model of JavaScript `ToNumber` on strings (used by loose equality `==`):
the whole trimmed string must be `[sign] digits [. digits]`; the empty or
all-whitespace string converts to 0; anything else is NaN (`none`). -/
def toNumberJS (s : String) : Option ℚ :=
  let t := trimJS s
  if t = "" then some 0
  else
    let p := splitSign t.data
    let ip := p.2.takeWhile (fun c => c.isDigit)
    let r1 := p.2.dropWhile (fun c => c.isDigit)
    match r1 with
    | [] => if ip.isEmpty then none else some (p.1 * (digitsVal ip : ℚ))
    | '.' :: rest =>
        let fp := rest.takeWhile (fun c => c.isDigit)
        let r2 := rest.dropWhile (fun c => c.isDigit)
        if r2.isEmpty && !(ip.isEmpty && fp.isEmpty) then
          some (p.1 * ((digitsVal ip : ℚ) + (digitsVal fp : ℚ) / (10 : ℚ) ^ fp.length))
        else none
    | _ => none

/-- Truncation of a rational toward zero (how JS `parseInt` truncates). -/
def ratTrunc (q : ℚ) : ℤ :=
  if 0 ≤ q then ⌊q⌋ else -⌊-q⌋

/-- Model of JavaScript `parseInt` on `JVal` (numbers are stringified first,
so an integral number is returned unchanged and a fractional one truncated;
a string is parsed as `[whitespace] [sign] digits`; other values give NaN). -/
def parseIntJS (v : JVal) : JVal :=
  match v with
  | .num q => .num ((ratTrunc q : ℤ) : ℚ)
  | .str s =>
      let cs := s.data.dropWhile (fun c => c.isWhitespace)
      let p := splitSign cs
      let ip := p.2.takeWhile (fun c => c.isDigit)
      if ip.isEmpty then .nan else .num (p.1 * (digitsVal ip : ℚ))
  | _ => .nan

/-- Model of JavaScript loose equality `==` on the `JVal` universe:
numbers compare numerically, NaN equals nothing (itself included), a string
and a number compare after `ToNumber` conversion of the string, and
null/undefined equal only each other. -/
def jsLooseEq : JVal → JVal → Bool
  | .nan, _ => false
  | _, .nan => false
  | .num x, .num y => x == y
  | .str x, .str y => x == y
  | .str x, .num y => match toNumberJS x with
      | some q => q == y
      | none => false
  | .num x, .str y => match toNumberJS y with
      | some q => x == q
      | none => false
  | .nullv, .nullv => true
  | .nullv, .undef => true
  | .undef, .nullv => true
  | .undef, .undef => true
  | _, _ => false

namespace GoogleSheetsService

/-! ### Retry layer (`GoogleSheetsService.withRetry`, part_004 lines 15-37)

The asynchronous operation is modelled by a function from the attempt number
(1-based) to the attempt's outcome.  The returned record captures everything
observable: the value returned or the error thrown (`none` models the
JavaScript `undefined` that would be thrown had the loop run zero times),
the backoff waits performed (in ms, in order), how many attempts ran, and
the console diagnostics, each tagged with the context string. -/

/-- Observable outcome of `withRetry`: result, backoff waits in ms,
number of attempts performed, and console diagnostics. -/
structure RetryOutcome (E A : Type) where
  result : Except (Option E) A
  waits : List ℕ
  attemptsMade : ℕ
  logs : List String

/-- The `console.warn` line of a failed attempt, tagged with the context
string. -/
def attemptLog (context : String) (k attempts : ℕ) : String :=
  context ++ (" - Attempt " ++ (toString k ++ ("/" ++ (toString attempts ++ " failed"))))

/-- The `console.error` line after the last failure, tagged with the
context string. -/
def failLog (context : String) : String :=
  context ++ " - All retry attempts failed"

/-- The `for (attempt = 1; attempt <= retryAttempts; attempt++)` loop of
`withRetry`, over the list of remaining attempt numbers.  On failure of
attempt `k < attempts` a wait of `delay * k` ms is performed (the source
comment says "Exponential backoff" but the formula is linear). -/
def retryGo (op : ℕ → Except E A) (attempts delay : ℕ) (context : String) :
    List ℕ → Option E → RetryOutcome E A
  | [], lastError =>
      ⟨.error lastError, [], 0, [failLog context]⟩
  | k :: rest, _ =>
      match op k with
      | .ok v => ⟨.ok v, [], 1, []⟩
      | .error e =>
          let w := if k < attempts then [delay * k] else []
          let r := retryGo op attempts delay context rest (some e)
          ⟨r.result, w ++ r.waits, r.attemptsMade + 1, attemptLog context k attempts :: r.logs⟩

/-- `withRetry(operation, context)` with the constructor's
`retryAttempts = 3` and `retryDelay = 1000`. -/
def withRetry (op : ℕ → Except E A) (context : String) : RetryOutcome E A :=
  retryGo op 3 1000 context (List.range' 1 3) none

/-- `getSheetData`: the network body is the abstract attempt function;
the context string is the one built in the source. -/
def getSheetData (op : ℕ → Except E A) (sheetName : String) : RetryOutcome E A :=
  withRetry op ("Getting data from sheet " ++ sheetName)

/-- `appendSheetData`'s use of `withRetry` with its context string. -/
def appendSheetData (op : ℕ → Except E A) (sheetName : String) : RetryOutcome E A :=
  withRetry op ("Appending data to sheet " ++ sheetName)

/-- `updateSheetData`'s use of `withRetry` with its context string. -/
def updateSheetData (op : ℕ → Except E A) (range : String) : RetryOutcome E A :=
  withRetry op ("Updating range " ++ range ++ " in spreadsheet")

/-- `batchUpdate`'s use of `withRetry` with its context string. -/
def batchUpdate (op : ℕ → Except E A) (spreadsheetId : String) : RetryOutcome E A :=
  withRetry op ("Batch updating spreadsheet " ++ spreadsheetId)

/-! ### Row finder (`findRows` / `findRow`, part_004 lines 181-232)

Criteria maps `{columnIndex: expectedValue}` are modelled as association
lists `List (ℕ × JVal)` (the `Object.entries` order; all criteria must
match, so the order is irrelevant to the result).  The predicate-function
matcher branch of the source is not modelled: every criterion here is a
literal, as in all call sites of the repository. -/

/-- One criterion against one row: a string criterion against a string cell
compares case-insensitively, anything else uses loose equality
(`actualValue != expectedValue`).  Reading past the end of a row gives
`undefined`, as in JavaScript. -/
def critMatch (expected actual : JVal) : Bool :=
  match expected, actual with
  | .str e, .str a => toLowerJS a == toLowerJS e
  | _, _ => jsLooseEq actual expected

/-- All criteria hold for a row. -/
def rowMatches (criteria : List (ℕ × JVal)) (row : List JVal) : Bool :=
  criteria.all fun p => critMatch p.2 ((row.get? p.1).getD .undef)

/-- The scan loop of `findRows`, starting at row index `i`. -/
def findRowsGo (criteria : List (ℕ × JVal)) : ℕ → List (List JVal) →
    List (ℕ × List JVal)
  | _, [] => []
  | i, row :: rest =>
      if rowMatches criteria row then (i, row) :: findRowsGo criteria (i + 1) rest
      else findRowsGo criteria (i + 1) rest

/-- `findRows(data, criteria)`: empty result for degenerate data, otherwise
scan rows 1.. (row 0 is the header). -/
def findRows (data : List (List JVal)) (criteria : List (ℕ × JVal)) :
    List (ℕ × List JVal) :=
  if data.length ≤ 1 then []
  else findRowsGo criteria 1 (data.drop 1)

/-- `findRow(data, criteria)`: the first match or null. -/
def findRow (data : List (List JVal)) (criteria : List (ℕ × JVal)) :
    Option (ℕ × List JVal) :=
  (findRows data criteria).head?

/-! ### Row/object transforms (part_004 lines 235-249)

Cells of a produced row are `Option V` with `none` for an empty (hole /
`undefined`) position; objects are association lists in key insertion
order.  `Math.max(...Object.values(columnMapping))` on an empty mapping is
`-Infinity` and `new Array(-Infinity)` throws a RangeError, modelled by the
`Option` result of `transformObjectToRow`. -/

/-- `Math.max(...l)`: `none` models the empty case (`-Infinity`). -/
def listMax? (l : List ℕ) : Option ℕ :=
  match l with
  | [] => none
  | h :: t => some (t.foldl max h)

/-- `transformObjectToRow(obj, columnMapping)`: allocate
`max(indices) + 1` empty cells, then write `obj[key]` at each mapped index
(an absent object key writes `undefined`, i.e. `none`). -/
def transformObjectToRow (obj : List (String × V)) (mapping : List (String × ℕ)) :
    Option (List (Option V)) :=
  match listMax? (mapping.map Prod.snd) with
  | none => none
  | some m =>
      some (mapping.foldl (fun row p => row.set p.2 (obj.lookup p.1))
        (List.replicate (m + 1) none))

/-- `transformRowToObject(row, columnMapping)`: for each mapped key read the
cell at its index (out of range reads `undefined`). -/
def transformRowToObject (row : List (Option V)) (mapping : List (String × ℕ)) :
    List (String × Option V) :=
  mapping.map fun p => (p.1, (row.get? p.2).getD none)

/-- The onomatopoeia sheet column mapping (as written in
`loadOnomatopoeiaData` and `saveOnomatopoeia`). -/
def onomatopoeiaMapping : List (String × ℕ) :=
  [("participantId", 0), ("participantName", 1), ("video", 2), ("movement", 3),
   ("startTime", 4), ("endTime", 5), ("answeredTimestamp", 6), ("hasAudio", 7),
   ("audioFileName", 8), ("emotion", 9)]

end GoogleSheetsService

/-! ### Tutorial step sequencer (src/js/tutorialStepManager.js) -/

/-- One entry of `stepConfigs` (`validation` is absent on steps with no
validation key). -/
structure StepConfig where
  type : String
  required : Bool
  autoAdvance : Bool
  validation : Option String
deriving DecidableEq

/-- The six tracked validation flags (the keys that `resetValidation`
installs; `hasOwnProperty` checks membership in exactly this set, which no
operation of the class ever enlarges or shrinks). -/
structure Flags where
  video_played : Bool
  clicked_yes : Bool
  entered_text : Bool
  clicked_start_time : Bool
  clicked_end_time : Bool
  clicked_save : Bool
deriving DecidableEq

/-- The flag state `resetValidation` produces. -/
def Flags.allFalse : Flags := ⟨false, false, false, false, false, false⟩

/-- The key set of `stepValidation`, in insertion order. -/
def trackedKeys : List String :=
  ["video_played", "clicked_yes", "entered_text", "clicked_start_time",
   "clicked_end_time", "clicked_save"]

/-- Sequencer state: `totalSteps`, `currentStep` and the validation flags
(the step configuration and message tables are static class data, modelled
as the standalone tables below). -/
structure TutorialStepManager where
  totalSteps : ℕ
  currentStep : ℕ
  stepValidation : Flags
deriving DecidableEq

/-- The `stepConfigs` table of the constructor; absent steps give the empty
config `{}` (`none`), whose `required`/`autoAdvance` are falsy. -/
def stepConfigs (n : ℕ) : Option StepConfig :=
  if n = 1 then some ⟨"intro", false, false, none⟩
  else if n = 2 then some ⟨"action", true, true, some "video_played"⟩
  else if n = 3 then some ⟨"info", false, false, none⟩
  else if n = 4 then some ⟨"action", true, true, some "clicked_yes"⟩
  else if n = 5 then some ⟨"input", true, false, some "entered_text"⟩
  else if n = 6 then some ⟨"action", true, true, some "clicked_start_time"⟩
  else if n = 7 then some ⟨"action", true, true, some "clicked_end_time"⟩
  else if n = 8 then some ⟨"info", false, false, none⟩
  else if n = 9 then some ⟨"action", true, true, some "clicked_save"⟩
  else if n = 10 then some ⟨"completion", false, false, none⟩
  else none

/-- The `requiredActionMessages` table of the constructor. -/
def requiredActionMessages (n : ℕ) : Option String :=
  if n = 2 then some "Please play the video to continue."
  else if n = 4 then some "Please click the \x27Yes\x27 button to continue."
  else if n = 5 then some "Please enter some text in the onomatopoeia field to continue."
  else if n = 6 then some "Please click the \x27Get Start Time\x27 button to continue."
  else if n = 7 then some "Please click the \x27Get End Time\x27 button to continue."
  else if n = 9 then some "Please click the \x27Save Onomatopoeia\x27 button to continue."
  else if n = 12 then some "Please click the \x27No\x27 button to continue."
  else none

namespace TutorialStepManager

/-- `new TutorialStepManager(totalSteps)`: step 1, all flags false. -/
def init (totalSteps : ℕ := 10) : TutorialStepManager :=
  ⟨totalSteps, 1, Flags.allFalse⟩

/-- `this.stepValidation[action]` (a key outside the tracked set reads
`undefined`, i.e. falsy). -/
def getFlag (s : TutorialStepManager) (a : String) : Bool :=
  if a = "video_played" then s.stepValidation.video_played
  else if a = "clicked_yes" then s.stepValidation.clicked_yes
  else if a = "entered_text" then s.stepValidation.entered_text
  else if a = "clicked_start_time" then s.stepValidation.clicked_start_time
  else if a = "clicked_end_time" then s.stepValidation.clicked_end_time
  else if a = "clicked_save" then s.stepValidation.clicked_save
  else false

/-- `this.stepValidation[action] = true` for a tracked key. -/
def setFlag (s : TutorialStepManager) (a : String) : TutorialStepManager :=
  if a = "video_played" then
    { s with stepValidation := { s.stepValidation with video_played := true } }
  else if a = "clicked_yes" then
    { s with stepValidation := { s.stepValidation with clicked_yes := true } }
  else if a = "entered_text" then
    { s with stepValidation := { s.stepValidation with entered_text := true } }
  else if a = "clicked_start_time" then
    { s with stepValidation := { s.stepValidation with clicked_start_time := true } }
  else if a = "clicked_end_time" then
    { s with stepValidation := { s.stepValidation with clicked_end_time := true } }
  else if a = "clicked_save" then
    { s with stepValidation := { s.stepValidation with clicked_save := true } }
  else s

/-- `getStepConfig()` at the current step. -/
def getStepConfig (s : TutorialStepManager) : Option StepConfig :=
  stepConfigs s.currentStep

/-- `canAdvance()`: true unless the current step is required and has a
tracked validation key whose flag is unset. -/
def canAdvance (s : TutorialStepManager) : Bool :=
  match stepConfigs s.currentStep with
  | none => true
  | some c =>
      if !c.required then true
      else match c.validation with
        | some v => if v ∈ trackedKeys then getFlag s v else true
        | none => true

/-- Observable outcome of `advance()`: the new state, the boolean return
value, and the message passed to the required-action callback (`none` when
that callback is not invoked).  `resetStepSpecificValidation()` is a no-op
in the source (it keeps all flags), so it does not appear here. -/
structure AdvanceResult where
  state : TutorialStepManager
  returned : Bool
  requiredMsg : Option String
deriving DecidableEq

/-- `advance(onAdvance, onRequiredAction)`. -/
def advance (s : TutorialStepManager) : AdvanceResult :=
  if !canAdvance s then ⟨s, false, requiredActionMessages s.currentStep⟩
  else if s.currentStep < s.totalSteps then
    ⟨{ s with currentStep := s.currentStep + 1 }, true, none⟩
  else ⟨s, false, none⟩

/-- `goBack(onGoBack)`: decrement with floor 1; the boolean is the return
value. -/
def goBack (s : TutorialStepManager) : TutorialStepManager × Bool :=
  if 1 < s.currentStep then ({ s with currentStep := s.currentStep - 1 }, true)
  else (s, false)

/-- `markActionCompleted(action, ...)`: set the flag when the action is a
tracked key; the boolean reports whether the auto-advance callback fired
(current step's config has `autoAdvance` and its `validation` equals the
action). -/
def markActionCompleted (s : TutorialStepManager) (a : String) :
    TutorialStepManager × Bool :=
  if a ∈ trackedKeys then
    let s' := setFlag s a
    let trig := match stepConfigs s'.currentStep with
      | some c => c.autoAdvance && (c.validation == some a)
      | none => false
    (s', trig)
  else (s, false)

/-- `markActionCompleted` as wired in the tutorial app
(src/unnamed/part_003 `checkStepValidation`): the auto-advance callback
calls `nextStep()`, which calls `advance()` on the sequencer. -/
def markAndAutoAdvance (s : TutorialStepManager) (a : String) :
    TutorialStepManager :=
  let r := markActionCompleted s a
  if r.2 then (advance r.1).state else r.1

/-- `goToStep(stepNumber, ...)`: move only when `1 ≤ k ≤ totalSteps`;
the boolean is the return value. -/
def goToStep (s : TutorialStepManager) (k : ℕ) : TutorialStepManager × Bool :=
  if 1 ≤ k ∧ k ≤ s.totalSteps then ({ s with currentStep := k }, true)
  else (s, false)

/-- `isComplete()`. -/
def isComplete (s : TutorialStepManager) : Bool :=
  s.totalSteps ≤ s.currentStep

/-- Per-flag patch carried by an imported state (a key absent from the
imported `stepValidation` object is `none`). -/
structure FlagsPatch where
  video_played : Option Bool
  clicked_yes : Option Bool
  entered_text : Option Bool
  clicked_start_time : Option Bool
  clicked_end_time : Option Bool
  clicked_save : Option Bool
deriving DecidableEq

/-- The argument of `importState` (absent properties are `none`; a present
numeric property equal to 0 is falsy and ignored by the source's `if`). -/
structure ImportPayload where
  currentStep : Option ℕ
  stepValidation : Option FlagsPatch
  totalSteps : Option ℕ
deriving DecidableEq

/-- Copy each tracked key present in the imported object. -/
def applyPatch (f : Flags) (p : FlagsPatch) : Flags :=
  ⟨p.video_played.getD f.video_played,
   p.clicked_yes.getD f.clicked_yes,
   p.entered_text.getD f.entered_text,
   p.clicked_start_time.getD f.clicked_start_time,
   p.clicked_end_time.getD f.clicked_end_time,
   p.clicked_save.getD f.clicked_save⟩

/-- `importState(state)`: clamp a truthy imported `currentStep` into
`[1, totalSteps]` (the totalSteps held *before* the import), patch the
flags, then overwrite `totalSteps` when truthy. -/
def importState (s : TutorialStepManager) (p : ImportPayload) :
    TutorialStepManager :=
  let s1 := match p.currentStep with
    | some c => if c = 0 then s else { s with currentStep := max 1 (min c s.totalSteps) }
    | none => s
  let s2 := match p.stepValidation with
    | some fp => { s1 with stepValidation := applyPatch s1.stepValidation fp }
    | none => s1
  match p.totalSteps with
  | some t => if t = 0 then s2 else { s2 with totalSteps := t }
  | none => s2

/-- The class invariant claimed for the sequencer. -/
def Inv (s : TutorialStepManager) : Prop :=
  1 ≤ s.currentStep ∧ s.currentStep ≤ s.totalSteps

instance (s : TutorialStepManager) : Decidable (Inv s) := by
  unfold Inv; infer_instance

/-- A session transition as the pages drive the sequencer: `nextStep`,
`previousStep`, `goToStep`, and marking an action (with the app's
auto-advance wiring). -/
inductive SessionOp where
  | adv
  | back
  | goTo (k : ℕ)
  | mark (a : String)

/-- State effect of one session transition. -/
def applyOp (s : TutorialStepManager) : SessionOp → TutorialStepManager
  | .adv => (advance s).state
  | .back => (goBack s).1
  | .goTo k => (goToStep s k).1
  | .mark a => markAndAutoAdvance s a

end TutorialStepManager

/-! ### Bubble positioner (src/unnamed/part_006)

Viewport geometry over exact rationals.  `getBoundingClientRect` rectangles
are `left/top/width/height`; `right = left + width`, `bottom = top + height`.
-/

namespace BubblePositioner

/-- A viewport rectangle. -/
structure RectQ where
  left : ℚ
  top : ℚ
  width : ℚ
  height : ℚ
deriving DecidableEq

/-- A candidate bubble position with its arrow class. -/
structure Position where
  left : ℚ
  top : ℚ
  arrow : String
deriving DecidableEq

/-- The four placement preferences. -/
inductive Pref where
  | right
  | left
  | below
  | above
deriving DecidableEq

/-- The candidate of `generatePositionStrategies` for one preference. -/
def strategyFor (targetRect bubbleRect : RectQ) (offset : ℚ) : Pref → Position
  | .right =>
      ⟨targetRect.left + targetRect.width + offset,
       targetRect.top + targetRect.height / 2 - bubbleRect.height / 2,
       "arrow-left"⟩
  | .left =>
      ⟨targetRect.left - bubbleRect.width - offset,
       targetRect.top + targetRect.height / 2 - bubbleRect.height / 2,
       "arrow-right"⟩
  | .below =>
      ⟨targetRect.left + targetRect.width / 2 - bubbleRect.width / 2,
       targetRect.top + targetRect.height + offset,
       "arrow-top"⟩
  | .above =>
      ⟨targetRect.left + targetRect.width / 2 - bubbleRect.width / 2,
       targetRect.top - bubbleRect.height - offset,
       "arrow-bottom"⟩

/-- `generatePositionStrategies(targetRect, bubbleRect, offset, preferences)`:
the candidates in preference order (every preference yields a strategy
object, so the source's `.filter(Boolean)` keeps them all). -/
def generatePositionStrategies (targetRect bubbleRect : RectQ) (offset : ℚ)
    (preferences : List Pref) : List Position :=
  preferences.map (strategyFor targetRect bubbleRect offset)

/-- The fit test of `findBestPosition`: the bubble rectangle lies within
`[padding, viewportDimension - padding]` on both axes. -/
def fitsInViewport (p : Position) (bubbleRect : RectQ)
    (viewportWidth viewportHeight padding : ℚ) : Bool :=
  (padding ≤ p.left && p.left + bubbleRect.width ≤ viewportWidth - padding) &&
  (padding ≤ p.top && p.top + bubbleRect.height ≤ viewportHeight - padding)

/-- `constrainToViewport(position, bubbleRect, vw, vh, padding)`. -/
def constrainToViewport (p : Position) (bubbleRect : RectQ)
    (viewportWidth viewportHeight padding : ℚ) : Position :=
  ⟨max padding (min p.left (viewportWidth - bubbleRect.width - padding)),
   max padding (min p.top (viewportHeight - bubbleRect.height - padding)),
   p.arrow⟩

/-- `findBestPosition(strategies, bubbleRect, vw, vh, padding)`: first
fitting candidate, else the first candidate clamped.  On an empty strategy
list the source would dereference `undefined` (`strategies[0] ||
strategies.right` is `undefined` on an array) and throw; `none` models that
throw. -/
def findBestPosition (strategies : List Position) (bubbleRect : RectQ)
    (viewportWidth viewportHeight padding : ℚ) : Option Position :=
  match strategies.find? (fun s =>
      fitsInViewport s bubbleRect viewportWidth viewportHeight padding) with
  | some s => some s
  | none => strategies.head?.map (fun s =>
      constrainToViewport s bubbleRect viewportWidth viewportHeight padding)

end BubblePositioner

/-! ### Survey save pipeline (src/js/surveyApp.js, src/unnamed/part_009) -/

namespace SurveyApp

/-- A response record as a JavaScript object: the exact field set shared by
the `onomatopoeiaData` object built in `saveOnomatopoeia` and the
`updatedInfoDict` pushed into `filteredData`. -/
structure Rec where
  participantId : JVal
  participantName : JVal
  video : JVal
  movement : JVal
  startTime : JVal
  endTime : JVal
  answeredTimestamp : JVal
  hasAudio : JVal
  audioFileName : JVal
deriving DecidableEq

/-- The `infoDict` argument of `saveOnomatopoeia` as the two callers build
it: `movement`, `startTime`, `endTime` are strings, `hasAudio` is 0 or 1,
and `audioBlob` is present or not. -/
structure InfoDict where
  participantId : JVal
  participantName : JVal
  video : JVal
  movement : String
  startTime : String
  endTime : String
  answeredTimestamp : JVal
  hasAudio : ℕ
  audioBlob : Bool
deriving DecidableEq

/-- `ValidationUtils.validateOnomatopoeiaData` (src/unnamed/part_009):
`some` is the error message key, `none` means valid. -/
def validateOnomatopoeiaData (d : InfoDict) : Option String :=
  if d.movement = "" || trimJS d.movement = "" then some "survey.error_enter_onomatopoeia"
  else if d.startTime = "-.--" then some "survey.error_record_start"
  else if d.endTime = "-.--" then some "survey.error_record_end"
  else if !jsTruthy d.participantId || !jsTruthy d.video ||
      !jsTruthy d.answeredTimestamp then some "survey.error_saving_general"
  else none

/-- Lift `parseFloat`'s result back into a JS value. -/
def jnum : Option ℚ → JVal
  | some q => .num q
  | none => .nan

/-- The `onomatopoeiaData` object built in `saveOnomatopoeia` and handed to
the store service: id through `parseInt`, times through `parseFloat`,
`hasAudio || 0`, `audioFileName || ""`. -/
def buildOnomatopoeiaData (d : InfoDict) (audioFileName : Option String) : Rec :=
  { participantId := parseIntJS d.participantId,
    participantName := d.participantName,
    video := d.video,
    movement := .str d.movement,
    startTime := jnum (parseFloatJS d.startTime),
    endTime := jnum (parseFloatJS d.endTime),
    answeredTimestamp := d.answeredTimestamp,
    hasAudio := .num (d.hasAudio : ℚ),
    audioFileName := .str (audioFileName.getD "") }

/-- The `updatedInfoDict` pushed into the local `filteredData`:
the original `infoDict` fields (so string times), `hasAudio || 0`, the raw
`audioFileName` (possibly null), and `audioBlob` deleted. -/
def buildUpdatedInfoDict (d : InfoDict) (audioFileName : Option String) : Rec :=
  { participantId := d.participantId,
    participantName := d.participantName,
    video := d.video,
    movement := .str d.movement,
    startTime := .str d.startTime,
    endTime := .str d.endTime,
    answeredTimestamp := d.answeredTimestamp,
    hasAudio := .num (d.hasAudio : ℚ),
    audioFileName := match audioFileName with
      | some s => .str s
      | none => .nullv }

/-- The enumerable fields of the `onomatopoeiaData` object, as an
association list (it has no `emotion` property, so the mapped `emotion`
column reads `undefined`). -/
def recToObj (r : Rec) : List (String × JVal) :=
  [("participantId", r.participantId), ("participantName", r.participantName),
   ("video", r.video), ("movement", r.movement), ("startTime", r.startTime),
   ("endTime", r.endTime), ("answeredTimestamp", r.answeredTimestamp),
   ("hasAudio", r.hasAudio), ("audioFileName", r.audioFileName)]

/-- `JSON.stringify` of one array element on the wire of `appendSheetData`:
a hole, `undefined` and `NaN` all serialize as JSON `null`. -/
def serializeCell : Option JVal → JVal
  | none => .nullv
  | some .nan => .nullv
  | some .undef => .nullv
  | some v => v

/-- `googleSheetsService.saveOnomatopoeia(...)`: transform the record
through the onomatopoeia column mapping and serialize the resulting row
(the mapping is nonempty, so `transformObjectToRow` cannot hit its
empty-mapping error case). -/
def serviceSaveRow (ono : Rec) : List JVal :=
  match GoogleSheetsService.transformObjectToRow (recToObj ono)
      GoogleSheetsService.onomatopoeiaMapping with
  | some row => row.map serializeCell
  | none => []

/-- The mutable survey state the pipeline touches: the local `filteredData`
array, the `filteredData` slot of localStorage, and the rows of the remote
onomatopoeia sheet. -/
structure AppState where
  filteredData : List Rec
  localStore : Option (List Rec)
  remote : List (List JVal)
deriving DecidableEq

/-- `SurveyApp.saveOnomatopoeia(filteredData, infoDict, ...)` for a given
audio-upload outcome (`upload`, used only when a blob is present and
`hasAudio === 1`; a failed upload is caught and leaves the name null) and
append outcome (`appendOk = false` models the store append throwing after
its retries, which aborts the save before any local update).  On success
the built record is appended remotely, pushed onto `filteredData`, and the
new array is written to localStorage. -/
def saveOnomatopoeia (upload : Option String) (appendOk : Bool)
    (d : InfoDict) (st : AppState) : Except String AppState :=
  match validateOnomatopoeiaData d with
  | some msg => .error msg
  | none =>
      let audioFileName := if d.audioBlob && d.hasAudio == 1 then upload else none
      let ono := buildOnomatopoeiaData d audioFileName
      if appendOk then
        let updated := buildUpdatedInfoDict d audioFileName
        let fd := st.filteredData ++ [updated]
        .ok { filteredData := fd, localStore := some fd,
              remote := st.remote ++ [serviceSaveRow ono] }
      else .error "Failed to save to sheet"

/-- The `infoDict` literal of `handleNoOnomatopoeia`. -/
def noOnomatopoeiaDict (pid pname ts : JVal) (videoName : String) : InfoDict :=
  { participantId := pid, participantName := pname, video := .str videoName,
    movement := "null", startTime := "null", endTime := "null",
    answeredTimestamp := ts, hasAudio := 0, audioBlob := false }

/-- `SurveyApp.handleNoOnomatopoeia()`: save a sentinel record only when
`filteredData` holds no record for the current video; errors are caught and
leave the state unchanged. -/
def handleNoOnomatopoeia (appendOk : Bool) (pid pname ts : JVal)
    (videoName : String) (st : AppState) : AppState :=
  let currentVideoData := st.filteredData.filter (fun r => r.video == .str videoName)
  if currentVideoData.length = 0 then
    match saveOnomatopoeia none appendOk (noOnomatopoeiaDict pid pname ts videoName) st with
    | .ok st' => st'
    | .error _ => st
  else st

/-- A persisted record is a "no-description" sentinel when its movement is
the string "null" (the discriminator the app itself uses). -/
def isSentinel (r : Rec) : Bool :=
  r.movement == .str "null"

end SurveyApp

/-! ## Helper lemmas -/

namespace GoogleSheetsService

lemma retryGo_attemptsMade_le (op : ℕ → Except E A) (attempts delay : ℕ)
    (context : String) (l : List ℕ) (le : Option E) :
    (retryGo op attempts delay context l le).attemptsMade ≤ l.length := by
  induction l generalizing le with
  | nil => simp [retryGo]
  | cons k rest ih =>
      simp only [retryGo]
      cases h : op k with
      | ok v => simp
      | error e =>
          simpa using Nat.succ_le_succ (ih (some e))

end GoogleSheetsService

/-- C1: every remote store operation (`getSheetData`, `appendSheetData`,
`updateSheetData`, `batchUpdate`) runs through `withRetry`, which makes at
most 3 attempts; when attempts 1 and 2 fail and attempt 3 succeeds, the
success value is returned after exactly the two backoff waits 1×1000 ms
then 2×1000 ms; when all 3 attempts fail, the last underlying error is
propagated and the diagnostics are tagged with the operation's context
string. -/
theorem claimC1_retry_policy {E A : Type} (op : ℕ → Except E A) (context : String)
    (e1 e2 : E) (h1 : op 1 = .error e1) (h2 : op 2 = .error e2) :
    (∀ v, op 3 = .ok v →
      GoogleSheetsService.withRetry op context =
        ⟨.ok v, [1 * 1000, 2 * 1000], 3,
         [GoogleSheetsService.attemptLog context 1 3,
          GoogleSheetsService.attemptLog context 2 3]⟩) ∧
    (∀ e3, op 3 = .error e3 →
      GoogleSheetsService.withRetry op context =
        ⟨.error (some e3), [1 * 1000, 2 * 1000], 3,
         [GoogleSheetsService.attemptLog context 1 3,
          GoogleSheetsService.attemptLog context 2 3,
          GoogleSheetsService.attemptLog context 3 3,
          GoogleSheetsService.failLog context]⟩) ∧
    (∀ l ∈ (GoogleSheetsService.withRetry op context).logs,
      ∃ suffix, l = context ++ suffix) ∧
    (∀ (op' : ℕ → Except E A) (c : String),
      (GoogleSheetsService.withRetry op' c).attemptsMade ≤ 3) ∧
    (∀ (op' : ℕ → Except E A) (sheetName : String),
      GoogleSheetsService.getSheetData op' sheetName =
        GoogleSheetsService.withRetry op' ("Getting data from sheet " ++ sheetName)) ∧
    (∀ (op' : ℕ → Except E A) (sheetName : String),
      GoogleSheetsService.appendSheetData op' sheetName =
        GoogleSheetsService.withRetry op' ("Appending data to sheet " ++ sheetName)) ∧
    (∀ (op' : ℕ → Except E A) (range : String),
      GoogleSheetsService.updateSheetData op' range =
        GoogleSheetsService.withRetry op' ("Updating range " ++ range ++ " in spreadsheet")) ∧
    (∀ (op' : ℕ → Except E A) (spreadsheetId : String),
      GoogleSheetsService.batchUpdate op' spreadsheetId =
        GoogleSheetsService.withRetry op' ("Batch updating spreadsheet " ++ spreadsheetId)) := by
  have hrange : List.range' 1 3 = [1, 2, 3] := rfl
  refine ⟨?_, ?_, ?_, ?_, fun _ _ => rfl, fun _ _ => rfl, fun _ _ => rfl, fun _ _ => rfl⟩
  · intro v h3
    simp [GoogleSheetsService.withRetry, hrange, GoogleSheetsService.retryGo, h1, h2, h3]
  · intro e3 h3
    simp [GoogleSheetsService.withRetry, hrange, GoogleSheetsService.retryGo, h1, h2, h3]
  · intro l hl
    simp only [GoogleSheetsService.withRetry, hrange, GoogleSheetsService.retryGo,
      h1, h2] at hl
    cases h3 : op 3 with
    | ok v =>
        simp only [h3] at hl
        simp only [List.mem_cons, List.not_mem_nil, or_false] at hl
        rcases hl with h | h <;>
          exact ⟨_, by rw [h]; rfl⟩
    | error e3 =>
        simp only [h3] at hl
        simp only [List.mem_cons, List.not_mem_nil, or_false] at hl
        rcases hl with h | h | h | h <;>
          exact ⟨_, by rw [h]; rfl⟩
  · intro op' c
    have := GoogleSheetsService.retryGo_attemptsMade_le op' 3 1000 c (List.range' 1 3) none
    simpa [GoogleSheetsService.withRetry] using this

/-- Witness for C1 at a concrete operation that fails twice then succeeds. -/
theorem claimC1_retry_policy_witness :
    GoogleSheetsService.withRetry
        (fun k => if k = 3 then Except.ok 7 else Except.error k) "ctx" =
      ⟨.ok 7, [1 * 1000, 2 * 1000], 3,
       [GoogleSheetsService.attemptLog "ctx" 1 3,
        GoogleSheetsService.attemptLog "ctx" 2 3]⟩ :=
  (claimC1_retry_policy (fun k => if k = 3 then Except.ok 7 else Except.error k)
    "ctx" 1 2 rfl rfl).1 7 rfl

namespace GoogleSheetsService

lemma critMatch_self (v : JVal) (h : v ≠ .nan) : critMatch v v = true := by
  cases v with
  | str s => simp [critMatch]
  | num q => simp [critMatch, jsLooseEq]
  | nan => exact absurd rfl h
  | nullv => rfl
  | undef => rfl

lemma findRowsGo_mem_le (criteria : List (ℕ × JVal)) (l : List (List JVal)) :
    ∀ (i : ℕ) (p : ℕ × List JVal), p ∈ findRowsGo criteria i l → i ≤ p.1 := by
  induction l with
  | nil => intro i p hp; simp [findRowsGo] at hp
  | cons row rest ih =>
      intro i p hp
      simp only [findRowsGo] at hp
      by_cases hm : rowMatches criteria row
      · rw [if_pos hm] at hp
        rcases List.mem_cons.mp hp with h | h
        · subst h; exact le_refl i
        · exact le_trans (Nat.le_succ i) (ih (i + 1) p h)
      · rw [if_neg hm] at hp
        exact le_trans (Nat.le_succ i) (ih (i + 1) p hp)

lemma findRowsGo_pairwise (criteria : List (ℕ × JVal)) (l : List (List JVal)) :
    ∀ i : ℕ, List.Pairwise (fun a b => a.1 < b.1) (findRowsGo criteria i l) := by
  induction l with
  | nil => intro i; simp [findRowsGo]
  | cons row rest ih =>
      intro i
      simp only [findRowsGo]
      by_cases hm : rowMatches criteria row
      · rw [if_pos hm]
        refine List.Pairwise.cons ?_ (ih (i + 1))
        intro q hq
        exact lt_of_lt_of_le (Nat.lt_succ_self i) (findRowsGo_mem_le criteria rest (i + 1) q hq)
      · rw [if_neg hm]
        exact ih (i + 1)

end GoogleSheetsService

/-- C8 counterexample: with `rowA = [NaN]` the criterion `{0: rowA[0]}` is
NaN, which under coercive equality matches nothing — not even `rowA`
itself — so `findRows([header, rowA, rowB], {0: rowA[0]})` returns no
match at all instead of the claimed single match at row index 1. -/
theorem claimC8_counterexample :
    (([JVal.nan] : List JVal)[0]?.getD .undef) = JVal.nan ∧
    GoogleSheetsService.rowMatches [(0, JVal.nan)] [JVal.str "y"] = false ∧
    GoogleSheetsService.findRows [[JVal.str "x"], [JVal.nan], [JVal.str "y"]]
      [(0, JVal.nan)] = [] := by
  decide

/-- C8 (amended): `findRows` never returns row index 0 and returns matches
in increasing row order; `findRows([header, rowA, rowB], {0: rowA[0]})`
with `rowB` not matching returns exactly `[(1, rowA)]` provided the
criterion cell `rowA[0]` is not NaN (NaN never equals itself under
coercive equality); string criteria against string cells compare
case-insensitively and all other criteria use loose equality; `findRow`
returns the first match or none. -/
theorem claimC8_findRows_amended :
    (∀ (data : List (List JVal)) (criteria : List (ℕ × JVal)) (p : ℕ × List JVal),
      p ∈ GoogleSheetsService.findRows data criteria → 1 ≤ p.1) ∧
    (∀ (data : List (List JVal)) (criteria : List (ℕ × JVal)),
      List.Pairwise (fun a b => a.1 < b.1) (GoogleSheetsService.findRows data criteria)) ∧
    (∀ (header rowA rowB : List JVal),
      (rowA[0]?.getD .undef) ≠ JVal.nan →
      GoogleSheetsService.rowMatches [(0, rowA[0]?.getD .undef)] rowB = false →
      GoogleSheetsService.findRows [header, rowA, rowB]
        [(0, rowA[0]?.getD .undef)] = [(1, rowA)]) ∧
    (∀ e a : String, GoogleSheetsService.critMatch (.str e) (.str a)
        = (toLowerJS a == toLowerJS e)) ∧
    (∀ (q : ℚ) (v : JVal), GoogleSheetsService.critMatch (.num q) v
        = jsLooseEq v (.num q)) ∧
    (∀ (data : List (List JVal)) (criteria : List (ℕ × JVal)),
      GoogleSheetsService.findRow data criteria
        = (GoogleSheetsService.findRows data criteria).head?) := by
  refine ⟨?_, ?_, ?_, fun e a => rfl, ?_, fun data criteria => rfl⟩
  · intro data criteria p hp
    unfold GoogleSheetsService.findRows at hp
    by_cases hlen : data.length ≤ 1
    · rw [if_pos hlen] at hp; simp at hp
    · rw [if_neg hlen] at hp
      exact GoogleSheetsService.findRowsGo_mem_le criteria (data.drop 1) 1 p hp
  · intro data criteria
    unfold GoogleSheetsService.findRows
    by_cases hlen : data.length ≤ 1
    · rw [if_pos hlen]; exact List.Pairwise.nil
    · rw [if_neg hlen]
      exact GoogleSheetsService.findRowsGo_pairwise criteria (data.drop 1) 1
  · intro header rowA rowB hnan hmiss
    have hmatchA : GoogleSheetsService.rowMatches
        [(0, rowA[0]?.getD .undef)] rowA = true := by
      simp [GoogleSheetsService.rowMatches,
        GoogleSheetsService.critMatch_self _ hnan]
    unfold GoogleSheetsService.findRows
    rw [if_neg (by simp)]
    simp only [List.drop_succ_cons, List.drop_zero]
    unfold GoogleSheetsService.findRowsGo
    rw [if_pos hmatchA]
    unfold GoogleSheetsService.findRowsGo
    rw [if_neg (by simp [hmiss])]
    rfl
  · intro q v
    cases v <;> rfl

/-- Witness for the amended C8 at a concrete three-row table. -/
theorem claimC8_findRows_amended_witness :
    GoogleSheetsService.findRows
        [[JVal.str "h"], [JVal.str "Alice"], [JVal.str "Bob"]]
        [(0, ([JVal.str "Alice"] : List JVal)[0]?.getD .undef)]
      = [(1, [JVal.str "Alice"])] :=
  claimC8_findRows_amended.2.2.1 [JVal.str "h"] [JVal.str "Alice"] [JVal.str "Bob"]
    (by decide) (by decide)

namespace GoogleSheetsService

lemma le_foldl_max (t : List ℕ) (a : ℕ) : a ≤ t.foldl max a := by
  induction t generalizing a with
  | nil => exact le_refl a
  | cons h rest ih => exact le_trans (le_max_left a h) (ih (max a h))

lemma mem_le_foldl_max (t : List ℕ) (a x : ℕ) (hx : x ∈ t) : x ≤ t.foldl max a := by
  induction t generalizing a with
  | nil => cases hx
  | cons h rest ih =>
      rcases List.mem_cons.mp hx with rfl | hm
      · exact le_trans (le_max_right a x) (le_foldl_max rest (max a x))
      · exact ih (max a h) hm

lemma listMax?_le (l : List ℕ) (m : ℕ) (h : listMax? l = some m) :
    ∀ x ∈ l, x ≤ m := by
  cases l with
  | nil => cases h
  | cons a t =>
      injection h with h
      intro x hx
      rcases List.mem_cons.mp hx with rfl | hm
      · rw [← h]; exact le_foldl_max t x
      · rw [← h]; exact mem_le_foldl_max t a x hm

lemma setCells_length (obj : List (String × V)) (l : List (String × ℕ))
    (row : List (Option V)) :
    (l.foldl (fun r p => r.set p.2 (obj.lookup p.1)) row).length = row.length := by
  induction l generalizing row with
  | nil => rfl
  | cons q t ih =>
      simp only [List.foldl_cons]
      rw [ih (row.set q.2 (obj.lookup q.1)), List.length_set]

lemma setCells_get_notmem (obj : List (String × V)) (l : List (String × ℕ))
    (row : List (Option V)) (j : ℕ) (hj : ∀ p ∈ l, p.2 ≠ j) :
    (l.foldl (fun r p => r.set p.2 (obj.lookup p.1)) row)[j]? = row[j]? := by
  induction l generalizing row with
  | nil => rfl
  | cons q t ih =>
      simp only [List.foldl_cons]
      rw [ih (row.set q.2 (obj.lookup q.1)) (fun p hp => hj p (List.mem_cons_of_mem q hp))]
      exact List.getElem?_set_ne (hj q (List.mem_cons_self q t))

lemma setCells_get_mem (obj : List (String × V)) (l : List (String × ℕ))
    (row : List (Option V)) (hnd : (l.map Prod.snd).Nodup) (p : String × ℕ)
    (hp : p ∈ l) (hlt : p.2 < row.length) :
    (l.foldl (fun r q => r.set q.2 (obj.lookup q.1)) row)[p.2]? =
      some (obj.lookup p.1) := by
  induction l generalizing row with
  | nil => cases hp
  | cons q t ih =>
      simp only [List.map_cons, List.nodup_cons] at hnd
      simp only [List.foldl_cons]
      rcases List.mem_cons.mp hp with rfl | hm
      · rw [setCells_get_notmem obj t (row.set p.2 (obj.lookup p.1)) p.2
            (fun r hr he => hnd.1 (he ▸ List.mem_map_of_mem Prod.snd hr))]
        exact List.getElem?_set_self hlt
      · exact ih (row.set q.2 (obj.lookup q.1)) hnd.2 hm
          (by rw [List.length_set]; exact hlt)

lemma lookup_transformRowToObject (row : List (Option V))
    (mapping : List (String × ℕ)) (hkeys : (mapping.map Prod.fst).Nodup)
    (p : String × ℕ) (hp : p ∈ mapping) :
    (transformRowToObject row mapping).lookup p.1 = some (row[p.2]?.getD none) := by
  unfold transformRowToObject
  induction mapping with
  | nil => cases hp
  | cons q t ih =>
      simp only [List.map_cons, List.nodup_cons] at hkeys
      rcases List.mem_cons.mp hp with rfl | hm
      · simp [List.lookup]
      · have hne : (p.1 == q.1) = false := by
          refine beq_eq_false_iff_ne.mpr (fun he => hkeys.1 ?_)
          exact he ▸ List.mem_map_of_mem Prod.fst hm
        simp only [List.map_cons, List.lookup, hne]
        exact ih hkeys.2 hm

end GoogleSheetsService

/-- C4: for a column mapping (nonempty, with distinct keys and distinct
column indices, as the data model requires of row mappings) and any object
whose keys are a subset of the mapping's keys, transforming to a row and
back reproduces the object on every mapped key (keys absent from the
object come back as the empty/undefined cell); the produced row has length
`max(mapped indices) + 1` and unmapped positions are left empty. -/
theorem claimC4_roundtrip {V : Type} (mapping : List (String × ℕ))
    (obj : List (String × V)) (hne : mapping ≠ [])
    (hidx : (mapping.map Prod.snd).Nodup)
    (hkeys : (mapping.map Prod.fst).Nodup)
    (_hsub : ∀ k ∈ obj.map Prod.fst, k ∈ mapping.map Prod.fst) :
    ∃ row, GoogleSheetsService.transformObjectToRow obj mapping = some row ∧
      (∃ m, GoogleSheetsService.listMax? (mapping.map Prod.snd) = some m ∧
        row.length = m + 1) ∧
      (∀ p ∈ mapping,
        (GoogleSheetsService.transformRowToObject row mapping).lookup p.1
          = some (obj.lookup p.1)) ∧
      (∀ j, j < row.length → (∀ p ∈ mapping, p.2 ≠ j) → row[j]? = some none) := by
  obtain ⟨m, hm⟩ : ∃ m, GoogleSheetsService.listMax? (mapping.map Prod.snd) = some m := by
    cases hmap : mapping.map Prod.snd with
    | nil => exact absurd (List.map_eq_nil_iff.mp hmap) hne
    | cons a t => exact ⟨t.foldl max a, by simp [GoogleSheetsService.listMax?, hmap]⟩
  refine ⟨(mapping.foldl (fun r p => r.set p.2 (obj.lookup p.1))
      (List.replicate (m + 1) none)), ?_, ⟨m, hm, ?_⟩, ?_, ?_⟩
  · unfold GoogleSheetsService.transformObjectToRow
    rw [hm]
  · rw [GoogleSheetsService.setCells_length, List.length_replicate]
  · intro p hp
    have hlt : p.2 < (List.replicate (m + 1) (none : Option V)).length := by
      rw [List.length_replicate]
      exact Nat.lt_succ_of_le
        (GoogleSheetsService.listMax?_le (mapping.map Prod.snd) m hm p.2
          (List.mem_map_of_mem Prod.snd hp))
    rw [GoogleSheetsService.lookup_transformRowToObject _ mapping hkeys p hp,
      GoogleSheetsService.setCells_get_mem obj mapping _ hidx p hp hlt]
    rfl
  · intro j hj hun
    rw [GoogleSheetsService.setCells_get_notmem obj mapping _ j hun]
    rw [GoogleSheetsService.setCells_length, List.length_replicate] at hj
    simp [List.getElem?_replicate, hj]

/-- Witness for C4 at the onomatopoeia mapping and a two-field object. -/
theorem claimC4_roundtrip_witness :
    ∃ row, GoogleSheetsService.transformObjectToRow
        [("video", "vid1.mp4"), ("movement", "swoosh")]
        GoogleSheetsService.onomatopoeiaMapping = some row ∧
      (∃ m, GoogleSheetsService.listMax?
          (GoogleSheetsService.onomatopoeiaMapping.map Prod.snd) = some m ∧
        row.length = m + 1) ∧
      (∀ p ∈ GoogleSheetsService.onomatopoeiaMapping,
        (GoogleSheetsService.transformRowToObject row
            GoogleSheetsService.onomatopoeiaMapping).lookup p.1
          = some (([("video", "vid1.mp4"), ("movement", "swoosh")]).lookup p.1)) ∧
      (∀ j, j < row.length →
        (∀ p ∈ GoogleSheetsService.onomatopoeiaMapping, p.2 ≠ j) →
        row[j]? = some none) :=
  claimC4_roundtrip GoogleSheetsService.onomatopoeiaMapping
    [("video", "vid1.mp4"), ("movement", "swoosh")]
    (by decide) (by decide) (by decide) (by decide)

lemma find?_eq_some_split {α : Type} (f : α → Bool) (l : List α) (a : α)
    (h : l.find? f = some a) :
    f a = true ∧ ∃ pre suf, l = pre ++ a :: suf ∧ ∀ b ∈ pre, f b = false := by
  induction l with
  | nil => cases h
  | cons x t ih =>
      by_cases hx : f x
      · rw [List.find?_cons_of_pos t hx] at h
        injection h with h
        subst h
        exact ⟨hx, [], t, rfl, by intro b hb; cases hb⟩
      · rw [List.find?_cons_of_neg t (by simpa using hx)] at h
        obtain ⟨hf, pre, suf, heq, hpre⟩ := ih h
        refine ⟨hf, x :: pre, suf, by rw [heq]; rfl, ?_⟩
        intro b hb
        rcases List.mem_cons.mp hb with rfl | hb
        · simpa using hx
        · exact hpre b hb

/-- C5: for every target rectangle, bubble rectangle, viewport size and
non-empty preference order, `findBestPosition` over the generated
candidates returns the first candidate (in preference order) whose bubble
rectangle lies within `[padding, viewportDimension - padding]` on both
axes when one exists; when none fits it returns the first candidate with
coordinates clamped by `constrainToViewport` — at least `padding ≥ 0` on
both axes, so never negative — and it never fails to return a position. -/
theorem claimC5_positioner (targetRect bubbleRect : BubblePositioner.RectQ)
    (offset vw vh pad : ℚ) (prefs : List BubblePositioner.Pref)
    (hne : prefs ≠ []) (hpad : 0 ≤ pad) :
    ∃ p, BubblePositioner.findBestPosition
        (BubblePositioner.generatePositionStrategies targetRect bubbleRect offset prefs)
        bubbleRect vw vh pad = some p ∧
      ((∃ c ∈ BubblePositioner.generatePositionStrategies targetRect bubbleRect offset prefs,
          BubblePositioner.fitsInViewport c bubbleRect vw vh pad = true) →
        BubblePositioner.fitsInViewport p bubbleRect vw vh pad = true ∧
        ∃ pre suf,
          BubblePositioner.generatePositionStrategies targetRect bubbleRect offset prefs
            = pre ++ p :: suf ∧
          ∀ c ∈ pre, BubblePositioner.fitsInViewport c bubbleRect vw vh pad = false) ∧
      ((∀ c ∈ BubblePositioner.generatePositionStrategies targetRect bubbleRect offset prefs,
          BubblePositioner.fitsInViewport c bubbleRect vw vh pad = false) →
        (∃ c0, (BubblePositioner.generatePositionStrategies targetRect bubbleRect
            offset prefs).head? = some c0 ∧
          p = BubblePositioner.constrainToViewport c0 bubbleRect vw vh pad) ∧
        pad ≤ p.left ∧ pad ≤ p.top ∧ 0 ≤ p.left ∧ 0 ≤ p.top) := by
  cases hfind : (BubblePositioner.generatePositionStrategies targetRect bubbleRect
      offset prefs).find?
        (fun s => BubblePositioner.fitsInViewport s bubbleRect vw vh pad) with
  | some s =>
      refine ⟨s, ?_, ?_, ?_⟩
      · unfold BubblePositioner.findBestPosition
        rw [hfind]
      · intro _
        obtain ⟨hf, pre, suf, heq, hpre⟩ := find?_eq_some_split _ _ _ hfind
        exact ⟨hf, pre, suf, heq, hpre⟩
      · intro hall
        have hs := List.find?_some hfind
        have hmem := List.mem_of_find?_eq_some hfind
        rw [hall s hmem] at hs
        cases hs
  | none =>
      obtain ⟨c0, t, hct⟩ : ∃ c0 t,
          BubblePositioner.generatePositionStrategies targetRect bubbleRect offset prefs
            = c0 :: t := by
        cases hc : BubblePositioner.generatePositionStrategies targetRect bubbleRect
            offset prefs with
        | nil =>
            exact absurd (List.map_eq_nil_iff.mp hc) hne
        | cons c0 t => exact ⟨c0, t, rfl⟩
      refine ⟨BubblePositioner.constrainToViewport c0 bubbleRect vw vh pad, ?_, ?_, ?_⟩
      · unfold BubblePositioner.findBestPosition
        rw [hfind, hct]
        rfl
      · rintro ⟨c, hc, hfit⟩
        have := List.find?_eq_none.mp hfind c hc
        rw [hfit] at this
        cases this rfl
      · intro _
        refine ⟨⟨c0, by rw [hct]; rfl, rfl⟩, ?_, ?_, ?_, ?_⟩
        · exact le_max_left pad _
        · exact le_max_left pad _
        · exact le_trans hpad (le_max_left pad _)
        · exact le_trans hpad (le_max_left pad _)

/-- Witness for C5 at a concrete target, bubble and viewport. -/
theorem claimC5_positioner_witness :
    ∃ p, BubblePositioner.findBestPosition
        (BubblePositioner.generatePositionStrategies ⟨100, 100, 50, 30⟩ ⟨0, 0, 200, 100⟩
          20 [.right, .left, .below, .above])
        ⟨0, 0, 200, 100⟩ 1000 800 20 = some p ∧
      ((∃ c ∈ BubblePositioner.generatePositionStrategies ⟨100, 100, 50, 30⟩
            ⟨0, 0, 200, 100⟩ 20 [.right, .left, .below, .above],
          BubblePositioner.fitsInViewport c ⟨0, 0, 200, 100⟩ 1000 800 20 = true) →
        BubblePositioner.fitsInViewport p ⟨0, 0, 200, 100⟩ 1000 800 20 = true ∧
        ∃ pre suf,
          BubblePositioner.generatePositionStrategies ⟨100, 100, 50, 30⟩ ⟨0, 0, 200, 100⟩
            20 [.right, .left, .below, .above] = pre ++ p :: suf ∧
          ∀ c ∈ pre, BubblePositioner.fitsInViewport c ⟨0, 0, 200, 100⟩ 1000 800 20 = false) ∧
      ((∀ c ∈ BubblePositioner.generatePositionStrategies ⟨100, 100, 50, 30⟩
            ⟨0, 0, 200, 100⟩ 20 [.right, .left, .below, .above],
          BubblePositioner.fitsInViewport c ⟨0, 0, 200, 100⟩ 1000 800 20 = false) →
        (∃ c0, (BubblePositioner.generatePositionStrategies ⟨100, 100, 50, 30⟩
            ⟨0, 0, 200, 100⟩ 20 [.right, .left, .below, .above]).head? = some c0 ∧
          p = BubblePositioner.constrainToViewport c0 ⟨0, 0, 200, 100⟩ 1000 800 20) ∧
        (20 : ℚ) ≤ p.left ∧ (20 : ℚ) ≤ p.top ∧ 0 ≤ p.left ∧ 0 ≤ p.top) :=
  claimC5_positioner ⟨100, 100, 50, 30⟩ ⟨0, 0, 200, 100⟩ 20 1000 800 20
    [.right, .left, .below, .above] (by decide) (by decide)


namespace TutorialStepManager

lemma setFlag_currentStep (s : TutorialStepManager) (a : String) :
    (setFlag s a).currentStep = s.currentStep := by
  unfold setFlag; split_ifs <;> rfl

lemma setFlag_totalSteps (s : TutorialStepManager) (a : String) :
    (setFlag s a).totalSteps = s.totalSteps := by
  unfold setFlag; split_ifs <;> rfl

lemma getFlag_setFlag_self (s : TutorialStepManager) (a : String)
    (h : a ∈ trackedKeys) : getFlag (setFlag s a) a = true := by
  simp only [trackedKeys, List.mem_cons, List.not_mem_nil, or_false] at h
  rcases h with rfl | rfl | rfl | rfl | rfl | rfl <;> rfl

lemma getFlag_setFlag_mono (s : TutorialStepManager) (a b : String)
    (ha : a ∈ trackedKeys) (h : getFlag s b = true) :
    getFlag (setFlag s a) b = true := by
  simp only [trackedKeys, List.mem_cons, List.not_mem_nil, or_false] at ha
  unfold getFlag at h ⊢
  rcases ha with rfl | rfl | rfl | rfl | rfl | rfl <;>
    (split_ifs at h ⊢ <;> simp_all [setFlag])

lemma stepConfigs_none (n : ℕ) (h : 11 ≤ n) : stepConfigs n = none := by
  unfold stepConfigs
  split_ifs <;> first
  | rfl
  | omega

lemma validation_tracked (n : ℕ) (c : StepConfig) (a : String)
    (hc : stepConfigs n = some c) (hval : c.validation = some a) :
    a ∈ trackedKeys := by
  have hn : n < 11 := by
    by_contra hgt
    rw [stepConfigs_none n (by omega)] at hc
    cases hc
  interval_cases n <;> simp_all [stepConfigs, trackedKeys] <;>
    subst hc <;> simp_all

lemma required_message_isSome (n : ℕ) (c : StepConfig)
    (hc : stepConfigs n = some c) (hreq : c.required = true) :
    (requiredActionMessages n).isSome = true := by
  have hn : n < 11 := by
    by_contra hgt
    rw [stepConfigs_none n (by omega)] at hc
    cases hc
  interval_cases n <;> simp_all [stepConfigs, requiredActionMessages] <;>
    subst hc <;> simp_all

lemma canAdvance_of_validation_flag (s : TutorialStepManager) (c : StepConfig)
    (a : String) (hc : stepConfigs s.currentStep = some c)
    (hval : c.validation = some a) (hflag : getFlag s a = true) :
    canAdvance s = true := by
  obtain ⟨tot, cur, fl⟩ := s
  have hn : cur < 11 := by
    by_contra hgt
    rw [stepConfigs_none cur (by omega)] at hc
    cases hc
  interval_cases cur <;>
    simp_all [stepConfigs, canAdvance, trackedKeys]

lemma canAdvance_false_of_unset (s : TutorialStepManager) (c : StepConfig)
    (v : String) (hc : stepConfigs s.currentStep = some c)
    (hreq : c.required = true) (hval : c.validation = some v)
    (htr : v ∈ trackedKeys) (hflag : getFlag s v = false) :
    canAdvance s = false := by
  obtain ⟨tot, cur, fl⟩ := s
  have hn : cur < 11 := by
    by_contra hgt
    rw [stepConfigs_none cur (by omega)] at hc
    cases hc
  interval_cases cur <;>
    simp_all [stepConfigs, canAdvance, trackedKeys]

lemma markActionCompleted_fst_of_tracked (s : TutorialStepManager) (a : String)
    (h : a ∈ trackedKeys) : (markActionCompleted s a).1 = setFlag s a := by
  unfold markActionCompleted
  rw [if_pos h]

end TutorialStepManager

/-- C2 counterexample: in the sequencer `new TutorialStepManager(4)` moved
to step 4 (whose config is `autoAdvance: true`, `validation: 'clicked_yes'`),
`markActionCompleted('clicked_yes')` fires the auto-advance callback, but
the triggered `advance()` refuses at the `totalSteps` cap, so the current
step does not increase by one. -/
theorem claimC2_counterexample :
    stepConfigs (((TutorialStepManager.init 4).goToStep 4).1.currentStep)
      = some ⟨"action", true, true, some "clicked_yes"⟩ ∧
    (((TutorialStepManager.init 4).goToStep 4).1.markActionCompleted "clicked_yes").2
      = true ∧
    (((TutorialStepManager.init 4).goToStep 4).1.markAndAutoAdvance
      "clicked_yes").currentStep = 4 ∧
    ¬ (((TutorialStepManager.init 4).goToStep 4).1.markAndAutoAdvance
        "clicked_yes").currentStep
      = ((TutorialStepManager.init 4).goToStep 4).1.currentStep + 1 := by
  decide

/-- C2 (amended): whenever the current step's config has `autoAdvance` true
and validation key equal to the action `a`, `markActionCompleted(a)` sets
the flag for `a` and fires the auto-advance callback without an explicit
`advance()` call by the caller; with the app's wiring of that callback to
`advance()`, the current step increases by one provided
`currentStep < totalSteps`, while at the cap the triggered advance refuses
and the step is unchanged. -/
theorem claimC2_auto_advance_amended (s : TutorialStepManager) (a : String)
    (c : StepConfig) (hc : stepConfigs s.currentStep = some c)
    (hauto : c.autoAdvance = true) (hval : c.validation = some a) :
    (s.markActionCompleted a).2 = true ∧
    (s.markActionCompleted a).1.getFlag a = true ∧
    (s.currentStep < s.totalSteps →
      (s.markAndAutoAdvance a).currentStep = s.currentStep + 1) ∧
    (¬ s.currentStep < s.totalSteps →
      (s.markAndAutoAdvance a).currentStep = s.currentStep) := by
  have htr : a ∈ trackedKeys := TutorialStepManager.validation_tracked _ c a hc hval
  have hmark1 : (s.markActionCompleted a).1 = s.setFlag a :=
    TutorialStepManager.markActionCompleted_fst_of_tracked s a htr
  have hmark2 : (s.markActionCompleted a).2 = true := by
    unfold TutorialStepManager.markActionCompleted
    rw [if_pos htr]
    simp only [TutorialStepManager.setFlag_currentStep, hc]
    simp [hauto, hval]
  have hflag : (s.setFlag a).getFlag a = true :=
    TutorialStepManager.getFlag_setFlag_self s a htr
  have hcan : TutorialStepManager.canAdvance (s.setFlag a) = true :=
    TutorialStepManager.canAdvance_of_validation_flag (s.setFlag a) c a
      (by rw [TutorialStepManager.setFlag_currentStep]; exact hc) hval hflag
  have hadv : s.markAndAutoAdvance a = (TutorialStepManager.advance (s.setFlag a)).state := by
    unfold TutorialStepManager.markAndAutoAdvance
    simp only [hmark2, hmark1, if_true]
  refine ⟨hmark2, by rw [hmark1]; exact hflag, ?_, ?_⟩
  · intro hlt
    rw [hadv]
    unfold TutorialStepManager.advance
    rw [hcan]
    simp [TutorialStepManager.setFlag_currentStep, TutorialStepManager.setFlag_totalSteps, hlt]
  · intro hge
    rw [hadv]
    unfold TutorialStepManager.advance
    rw [hcan]
    simp [TutorialStepManager.setFlag_currentStep, TutorialStepManager.setFlag_totalSteps, hge]

/-- Witness for the amended C2 at the default 10-step sequencer on step 4. -/
theorem claimC2_auto_advance_amended_witness :
    ((((TutorialStepManager.init 10).goToStep 4).1).markActionCompleted
      "clicked_yes").2 = true ∧
    ((((TutorialStepManager.init 10).goToStep 4).1).markActionCompleted
      "clicked_yes").1.getFlag "clicked_yes" = true ∧
    ((((TutorialStepManager.init 10).goToStep 4).1).currentStep
        < (((TutorialStepManager.init 10).goToStep 4).1).totalSteps →
      ((((TutorialStepManager.init 10).goToStep 4).1).markAndAutoAdvance
        "clicked_yes").currentStep
        = (((TutorialStepManager.init 10).goToStep 4).1).currentStep + 1) ∧
    (¬ (((TutorialStepManager.init 10).goToStep 4).1).currentStep
        < (((TutorialStepManager.init 10).goToStep 4).1).totalSteps →
      ((((TutorialStepManager.init 10).goToStep 4).1).markAndAutoAdvance
        "clicked_yes").currentStep
        = (((TutorialStepManager.init 10).goToStep 4).1).currentStep) :=
  claimC2_auto_advance_amended ((TutorialStepManager.init 10).goToStep 4).1
    "clicked_yes" ⟨"action", true, true, some "clicked_yes"⟩
    (by decide) (by decide) (by decide)

/-- C3: when the current step is required with a tracked validation key
whose flag is unset, `advance()` refuses — state unchanged, return false,
required-action callback invoked with the per-step message (which exists
for every required step); once the flag has been set via
`markActionCompleted`, `advance()` moves to `min(currentStep + 1,
totalSteps)`.  In particular at step 4 of the default sequencer (config
`{required: true, validation: 'clicked_yes'}`), `advance()` before marking
leaves `currentStep = 4` and passes the step-4 message to the callback,
and after marking leaves `currentStep = 5`. -/
theorem claimC3_required_gate :
    (∀ (s : TutorialStepManager) (c : StepConfig) (v : String),
      stepConfigs s.currentStep = some c → c.required = true →
      c.validation = some v → s.getFlag v = false →
      s.advance = ⟨s, false, requiredActionMessages s.currentStep⟩ ∧
      (requiredActionMessages s.currentStep).isSome = true) ∧
    (∀ (s : TutorialStepManager) (c : StepConfig) (v : String),
      stepConfigs s.currentStep = some c → c.validation = some v →
      s.currentStep ≤ s.totalSteps →
      ((s.markActionCompleted v).1.advance).state.currentStep
        = min (s.currentStep + 1) s.totalSteps) ∧
    ((((TutorialStepManager.init 10).goToStep 4).1.advance).state.currentStep = 4 ∧
     (((TutorialStepManager.init 10).goToStep 4).1.advance).requiredMsg
       = some "Please click the \x27Yes\x27 button to continue." ∧
     (((((TutorialStepManager.init 10).goToStep 4).1.markActionCompleted
        "clicked_yes").1.advance).state).currentStep = 5) := by
  refine ⟨?_, ?_, by decide⟩
  · intro s c v hc hreq hval hflag
    have htr : v ∈ trackedKeys := TutorialStepManager.validation_tracked _ c v hc hval
    have hcan : TutorialStepManager.canAdvance s = false :=
      TutorialStepManager.canAdvance_false_of_unset s c v hc hreq hval htr hflag
    constructor
    · unfold TutorialStepManager.advance
      rw [hcan]
      simp
    · exact TutorialStepManager.required_message_isSome _ c hc hreq
  · intro s c v hc hval hle
    have htr : v ∈ trackedKeys := TutorialStepManager.validation_tracked _ c v hc hval
    have hmark1 : (s.markActionCompleted v).1 = s.setFlag v :=
      TutorialStepManager.markActionCompleted_fst_of_tracked s v htr
    have hflag : (s.setFlag v).getFlag v = true :=
      TutorialStepManager.getFlag_setFlag_self s v htr
    have hcan : TutorialStepManager.canAdvance (s.setFlag v) = true :=
      TutorialStepManager.canAdvance_of_validation_flag (s.setFlag v) c v
        (by rw [TutorialStepManager.setFlag_currentStep]; exact hc) hval hflag
    rw [hmark1]
    unfold TutorialStepManager.advance
    rw [hcan]
    by_cases hlt : s.currentStep < s.totalSteps
    · rw [if_neg (by simp), if_pos (by
        rw [TutorialStepManager.setFlag_currentStep,
          TutorialStepManager.setFlag_totalSteps]
        exact hlt)]
      simp only [TutorialStepManager.setFlag_currentStep]
      omega
    · rw [if_neg (by simp), if_neg (by
        rw [TutorialStepManager.setFlag_currentStep,
          TutorialStepManager.setFlag_totalSteps]
        exact hlt)]
      simp only [TutorialStepManager.setFlag_currentStep]
      omega

/-- Witness for C3 at the default sequencer moved to step 2
(`{required: true, validation: 'video_played'}`, flag unset). -/
theorem claimC3_required_gate_witness :
    (((TutorialStepManager.init 10).goToStep 2).1.advance
      = ⟨((TutorialStepManager.init 10).goToStep 2).1, false,
         requiredActionMessages
           ((TutorialStepManager.init 10).goToStep 2).1.currentStep⟩ ∧
     (requiredActionMessages
        ((TutorialStepManager.init 10).goToStep 2).1.currentStep).isSome = true) ∧
    ((((TutorialStepManager.init 10).goToStep 2).1.markActionCompleted
        "video_played").1.advance).state.currentStep
      = min (((TutorialStepManager.init 10).goToStep 2).1.currentStep + 1)
          ((TutorialStepManager.init 10).goToStep 2).1.totalSteps :=
  ⟨claimC3_required_gate.1 ((TutorialStepManager.init 10).goToStep 2).1
      ⟨"action", true, true, some "video_played"⟩ "video_played"
      (by decide) (by decide) (by decide) (by decide),
   claimC3_required_gate.2.1 ((TutorialStepManager.init 10).goToStep 2).1
      ⟨"action", true, true, some "video_played"⟩ "video_played"
      (by decide) (by decide) (by decide)⟩

namespace TutorialStepManager

lemma advance_stepValidation (s : TutorialStepManager) :
    s.advance.state.stepValidation = s.stepValidation := by
  unfold advance; split_ifs <;> rfl

lemma goBack_stepValidation (s : TutorialStepManager) :
    (s.goBack).1.stepValidation = s.stepValidation := by
  unfold goBack; split_ifs <;> rfl

lemma goToStep_stepValidation (s : TutorialStepManager) (k : ℕ) :
    (s.goToStep k).1.stepValidation = s.stepValidation := by
  unfold goToStep; split_ifs <;> rfl

lemma getFlag_eq_of_stepValidation (s t : TutorialStepManager) (a : String)
    (h : s.stepValidation = t.stepValidation) : s.getFlag a = t.getFlag a := by
  unfold getFlag; split_ifs <;> simp [h]

lemma markActionCompleted_stepValidation (s : TutorialStepManager) (b : String) :
    (s.markActionCompleted b).1.stepValidation =
      if b ∈ trackedKeys then (s.setFlag b).stepValidation else s.stepValidation := by
  unfold markActionCompleted; split_ifs <;> rfl

lemma markAndAutoAdvance_stepValidation (s : TutorialStepManager) (b : String) :
    (s.markAndAutoAdvance b).stepValidation
      = (s.markActionCompleted b).1.stepValidation := by
  unfold markAndAutoAdvance
  by_cases h : (s.markActionCompleted b).2 <;> simp [h, advance_stepValidation]

end TutorialStepManager

/-- C9: `advance()` and `goBack()` never modify the validation-flag set;
every flag that is true stays true under every session transition
(`advance`, `goBack`, `goToStep`, `markActionCompleted` with the app's
auto-advance wiring) and under every sequence of them, and a fresh
sequencer instance has all flags false. -/
theorem claimC9_flags_monotone :
    (∀ s : TutorialStepManager,
      s.advance.state.stepValidation = s.stepValidation ∧
      (s.goBack).1.stepValidation = s.stepValidation) ∧
    (∀ (s : TutorialStepManager) (op : TutorialStepManager.SessionOp) (a : String),
      s.getFlag a = true → (s.applyOp op).getFlag a = true) ∧
    (∀ (s : TutorialStepManager) (ops : List TutorialStepManager.SessionOp)
      (a : String), s.getFlag a = true →
      (ops.foldl TutorialStepManager.applyOp s).getFlag a = true) ∧
    (∀ (n : ℕ) (a : String), (TutorialStepManager.init n).getFlag a = false) := by
  have hop : ∀ (s : TutorialStepManager) (op : TutorialStepManager.SessionOp)
      (a : String), s.getFlag a = true → (s.applyOp op).getFlag a = true := by
    intro s op a h
    cases op with
    | adv =>
        show s.advance.state.getFlag a = true
        rw [TutorialStepManager.getFlag_eq_of_stepValidation _ s a
          (TutorialStepManager.advance_stepValidation s)]
        exact h
    | back =>
        show (s.goBack).1.getFlag a = true
        rw [TutorialStepManager.getFlag_eq_of_stepValidation _ s a
          (TutorialStepManager.goBack_stepValidation s)]
        exact h
    | goTo k =>
        show (s.goToStep k).1.getFlag a = true
        rw [TutorialStepManager.getFlag_eq_of_stepValidation _ s a
          (TutorialStepManager.goToStep_stepValidation s k)]
        exact h
    | mark b =>
        show (s.markAndAutoAdvance b).getFlag a = true
        by_cases htr : b ∈ trackedKeys
        · rw [TutorialStepManager.getFlag_eq_of_stepValidation _ (s.setFlag b) a
            (by rw [TutorialStepManager.markAndAutoAdvance_stepValidation,
              TutorialStepManager.markActionCompleted_stepValidation, if_pos htr])]
          exact TutorialStepManager.getFlag_setFlag_mono s b a htr h
        · rw [TutorialStepManager.getFlag_eq_of_stepValidation _ s a
            (by rw [TutorialStepManager.markAndAutoAdvance_stepValidation,
              TutorialStepManager.markActionCompleted_stepValidation, if_neg htr])]
          exact h
  refine ⟨fun s => ⟨TutorialStepManager.advance_stepValidation s,
    TutorialStepManager.goBack_stepValidation s⟩, hop, ?_, ?_⟩
  · intro s ops
    induction ops generalizing s with
    | nil => intro a h; exact h
    | cons op rest ih =>
        intro a h
        exact ih (s.applyOp op) a (hop s op a h)
  · intro n a
    unfold TutorialStepManager.init TutorialStepManager.getFlag Flags.allFalse
    split_ifs <;> rfl

/-- Witness for C9: a set flag survives an `advance` transition. -/
theorem claimC9_flags_monotone_witness :
    ((((TutorialStepManager.init 10).markActionCompleted "clicked_yes").1).applyOp
      .adv).getFlag "clicked_yes" = true :=
  claimC9_flags_monotone.2.1
    ((TutorialStepManager.init 10).markActionCompleted "clicked_yes").1
    .adv "clicked_yes" (by decide)

namespace TutorialStepManager

lemma advance_Inv (s : TutorialStepManager) (h : Inv s) : Inv s.advance.state := by
  unfold Inv at h ⊢
  unfold advance
  split_ifs <;> simp_all <;> omega

lemma markActionCompleted_Inv (s : TutorialStepManager) (b : String) (h : Inv s) :
    Inv (s.markActionCompleted b).1 := by
  unfold markActionCompleted
  split_ifs with ht
  · unfold Inv at h ⊢
    rw [setFlag_currentStep, setFlag_totalSteps]
    exact h
  · exact h

end TutorialStepManager

/-- C10 counterexample: `importState({currentStep: 8, totalSteps: 5})` on a
fresh 10-step sequencer clamps `currentStep` against the old `totalSteps`
(10) and only afterwards overwrites `totalSteps` with 5, leaving
`currentStep = 8 > totalSteps = 5`, so the claimed invariant
`1 ≤ currentStep ≤ totalSteps` is not maintained by every operation. -/
theorem claimC10_counterexample :
    TutorialStepManager.Inv (TutorialStepManager.init 10) ∧
    ((TutorialStepManager.init 10).importState ⟨some 8, none, some 5⟩).currentStep = 8 ∧
    ((TutorialStepManager.init 10).importState ⟨some 8, none, some 5⟩).totalSteps = 5 ∧
    ¬ TutorialStepManager.Inv
        ((TutorialStepManager.init 10).importState ⟨some 8, none, some 5⟩) := by
  refine ⟨by decide, by decide, by decide, ?_⟩
  intro h
  exact absurd h (by decide)

/-- C10 (amended): `advance`, `goBack`, `goToStep` and `markActionCompleted`
(with auto-advance wiring) all preserve `1 ≤ currentStep ≤ totalSteps`;
`goToStep(k)` out of range returns false and leaves the state unchanged;
`importState` clamps a truthy imported `currentStep` into
`[1, totalSteps-at-entry]`, and preserves the invariant whenever the
imported `totalSteps` is absent or falsy (an import carrying a truthy
`totalSteps` smaller than the clamped `currentStep` breaks it, as the
counterexample shows). -/
theorem claimC10_invariant_amended :
    (∀ s : TutorialStepManager, TutorialStepManager.Inv s →
      TutorialStepManager.Inv s.advance.state) ∧
    (∀ s : TutorialStepManager, TutorialStepManager.Inv s →
      TutorialStepManager.Inv (s.goBack).1) ∧
    (∀ (s : TutorialStepManager) (k : ℕ), TutorialStepManager.Inv s →
      TutorialStepManager.Inv (s.goToStep k).1) ∧
    (∀ (s : TutorialStepManager) (k : ℕ), ¬ (1 ≤ k ∧ k ≤ s.totalSteps) →
      s.goToStep k = (s, false)) ∧
    (∀ (s : TutorialStepManager) (a : String), TutorialStepManager.Inv s →
      TutorialStepManager.Inv (s.markAndAutoAdvance a)) ∧
    (∀ (s : TutorialStepManager) (p : TutorialStepManager.ImportPayload) (c : ℕ),
      p.currentStep = some c → c ≠ 0 →
      (s.importState p).currentStep = max 1 (min c s.totalSteps)) ∧
    (∀ (s : TutorialStepManager) (c : ℕ), TutorialStepManager.Inv s →
      1 ≤ max 1 (min c s.totalSteps) ∧ max 1 (min c s.totalSteps) ≤ s.totalSteps) ∧
    (∀ (s : TutorialStepManager) (p : TutorialStepManager.ImportPayload),
      TutorialStepManager.Inv s →
      (p.totalSteps = none ∨ p.totalSteps = some 0) →
      TutorialStepManager.Inv (s.importState p)) := by
  refine ⟨TutorialStepManager.advance_Inv, ?_, ?_, ?_, ?_, ?_, ?_, ?_⟩
  · intro s h
    unfold TutorialStepManager.Inv at h ⊢
    unfold TutorialStepManager.goBack
    split_ifs <;> simp_all <;> omega
  · intro s k h
    unfold TutorialStepManager.Inv at h ⊢
    unfold TutorialStepManager.goToStep
    split_ifs <;> simp_all
  · intro s k h
    unfold TutorialStepManager.goToStep
    rw [if_neg h]
  · intro s a h
    unfold TutorialStepManager.markAndAutoAdvance
    by_cases ht : (s.markActionCompleted a).2 <;> simp only [ht, if_true, if_false]
    · exact TutorialStepManager.advance_Inv _
        (TutorialStepManager.markActionCompleted_Inv s a h)
    · exact TutorialStepManager.markActionCompleted_Inv s a h
  · intro s p c hcs hc0
    obtain ⟨pc, pv, pt⟩ := p
    simp only at hcs
    subst hcs
    unfold TutorialStepManager.importState
    cases pv <;> cases pt <;> simp [hc0] <;> split_ifs <;> simp
  · intro s c h
    unfold TutorialStepManager.Inv at h
    omega
  · intro s p h hts
    obtain ⟨pc, pv, pt⟩ := p
    simp only at hts
    have hpt : pt = none ∨ pt = some 0 := hts
    unfold TutorialStepManager.Inv at h ⊢
    unfold TutorialStepManager.importState
    rcases hpt with rfl | rfl <;> cases pc <;> cases pv <;>
      (try simp) <;> (try split_ifs) <;> (try simp) <;> omega

/-- Witness for the amended C10 on a concrete in-range `goToStep` plus
an import that carries no `totalSteps`. -/
theorem claimC10_invariant_amended_witness :
    TutorialStepManager.Inv ((TutorialStepManager.init 10).goToStep 7).1 ∧
    ((TutorialStepManager.init 10).importState ⟨some 25, none, none⟩).currentStep
      = max 1 (min 25 (TutorialStepManager.init 10).totalSteps) ∧
    TutorialStepManager.Inv
      ((TutorialStepManager.init 10).importState ⟨some 25, none, none⟩) :=
  ⟨claimC10_invariant_amended.2.2.1 (TutorialStepManager.init 10) 7 (by decide),
   claimC10_invariant_amended.2.2.2.2.2.1 (TutorialStepManager.init 10)
     ⟨some 25, none, none⟩ 25 rfl (by decide),
   claimC10_invariant_amended.2.2.2.2.2.2.2 (TutorialStepManager.init 10)
     ⟨some 25, none, none⟩ (by decide) (Or.inl rfl)⟩

/-- C6 (code bug): at the `handleNoOnomatopoeia` sentinel input the record
kept locally carries the string "null" in all three of movement, startTime
and endTime, but the row appended to the remote store does not — the
shared save path applies `parseFloat` to the sentinel times, producing NaN
(serialized as JSON null), so the remote row is a *partial* sentinel:
movement cell `"null"`, time cells null.  The second `handleNoOnomatopoeia`
call shows the at-most-one-sentinel guard: it appends nothing. -/
theorem claimC6_sentinel_partial_remote :
    (SurveyApp.handleNoOnomatopoeia true (.num 1) (.str "Alice")
        (.str "2025-01-01T00:00:00Z") "vid1.mp4"
        ⟨[], none, []⟩).filteredData.map
          (fun r => (r.movement, r.startTime, r.endTime))
      = [(.str "null", .str "null", .str "null")] ∧
    (SurveyApp.handleNoOnomatopoeia true (.num 1) (.str "Alice")
        (.str "2025-01-01T00:00:00Z") "vid1.mp4" ⟨[], none, []⟩).remote
      = [[.num 1, .str "Alice", .str "vid1.mp4", .str "null", .nullv, .nullv,
          .str "2025-01-01T00:00:00Z", .num 0, .str "", .nullv]] ∧
    ¬ ((SurveyApp.handleNoOnomatopoeia true (.num 1) (.str "Alice")
        (.str "2025-01-01T00:00:00Z") "vid1.mp4" ⟨[], none, []⟩).remote
      = [[.num 1, .str "Alice", .str "vid1.mp4", .str "null", .str "null", .str "null",
          .str "2025-01-01T00:00:00Z", .num 0, .str "", .nullv]]) ∧
    SurveyApp.handleNoOnomatopoeia true (.num 1) (.str "Alice")
        (.str "2025-01-01T00:00:00Z") "vid1.mp4"
        (SurveyApp.handleNoOnomatopoeia true (.num 1) (.str "Alice")
          (.str "2025-01-01T00:00:00Z") "vid1.mp4" ⟨[], none, []⟩)
      = SurveyApp.handleNoOnomatopoeia true (.num 1) (.str "Alice")
          (.str "2025-01-01T00:00:00Z") "vid1.mp4" ⟨[], none, []⟩ := by
  refine ⟨by decide, by decide, ?_, by decide⟩
  intro h
  exact absurd h (by decide)

/-- C7 counterexample: at the description `{movement: "swoosh", startTime:
"1.20", endTime: "2.40"}` with no audio, the record appended to the remote
store has `audioFileName = ""` (and float times), while the record pushed
onto the local `filteredData` has `audioFileName = null` (and the original
string times) — they are not the same record. -/
theorem claimC7_counterexample :
    (SurveyApp.buildOnomatopoeiaData
        ⟨.num 1, .str "Alice", .str "vid1.mp4", "swoosh", "1.20", "2.40",
         .str "2025-01-01T00:00:00Z", 0, false⟩ none).hasAudio = .num 0 ∧
    (SurveyApp.buildOnomatopoeiaData
        ⟨.num 1, .str "Alice", .str "vid1.mp4", "swoosh", "1.20", "2.40",
         .str "2025-01-01T00:00:00Z", 0, false⟩ none).audioFileName = .str "" ∧
    SurveyApp.saveOnomatopoeia none true
        ⟨.num 1, .str "Alice", .str "vid1.mp4", "swoosh", "1.20", "2.40",
         .str "2025-01-01T00:00:00Z", 0, false⟩ ⟨[], none, []⟩
      = .ok ⟨[SurveyApp.buildUpdatedInfoDict
            ⟨.num 1, .str "Alice", .str "vid1.mp4", "swoosh", "1.20", "2.40",
             .str "2025-01-01T00:00:00Z", 0, false⟩ none],
          some [SurveyApp.buildUpdatedInfoDict
            ⟨.num 1, .str "Alice", .str "vid1.mp4", "swoosh", "1.20", "2.40",
             .str "2025-01-01T00:00:00Z", 0, false⟩ none],
          [SurveyApp.serviceSaveRow (SurveyApp.buildOnomatopoeiaData
            ⟨.num 1, .str "Alice", .str "vid1.mp4", "swoosh", "1.20", "2.40",
             .str "2025-01-01T00:00:00Z", 0, false⟩ none)]⟩ ∧
    (SurveyApp.buildUpdatedInfoDict
        ⟨.num 1, .str "Alice", .str "vid1.mp4", "swoosh", "1.20", "2.40",
         .str "2025-01-01T00:00:00Z", 0, false⟩ none).audioFileName = .nullv ∧
    SurveyApp.buildUpdatedInfoDict
        ⟨.num 1, .str "Alice", .str "vid1.mp4", "swoosh", "1.20", "2.40",
         .str "2025-01-01T00:00:00Z", 0, false⟩ none
      ≠ SurveyApp.buildOnomatopoeiaData
        ⟨.num 1, .str "Alice", .str "vid1.mp4", "swoosh", "1.20", "2.40",
         .str "2025-01-01T00:00:00Z", 0, false⟩ none := by
  refine ⟨by decide, by decide, by rfl, by decide, ?_⟩
  intro h
  have := congrArg SurveyApp.Rec.audioFileName h
  revert this
  decide

/-- C7 (amended): saving a valid description with no audio recording
appends to the remote store exactly one row, built from a record with
`hasAudio = 0` and `audioFileName = ""`, and pushes onto the local
`filteredData` (also written to localStorage) a corresponding record built
from the input dict without any re-fetch from the remote store; that local
record keeps the original string-typed times and carries
`audioFileName = null` rather than `""`. -/
theorem claimC7_save_amended (upload : Option String) (d : SurveyApp.InfoDict)
    (st : SurveyApp.AppState)
    (hvalid : SurveyApp.validateOnomatopoeiaData d = none)
    (hnoaudio : d.hasAudio = 0) :
    SurveyApp.saveOnomatopoeia upload true d st
      = .ok ⟨st.filteredData ++ [SurveyApp.buildUpdatedInfoDict d none],
          some (st.filteredData ++ [SurveyApp.buildUpdatedInfoDict d none]),
          st.remote ++ [SurveyApp.serviceSaveRow
            (SurveyApp.buildOnomatopoeiaData d none)]⟩ ∧
    (SurveyApp.buildOnomatopoeiaData d none).hasAudio = .num 0 ∧
    (SurveyApp.buildOnomatopoeiaData d none).audioFileName = .str "" ∧
    (SurveyApp.buildUpdatedInfoDict d none).hasAudio = .num 0 ∧
    (SurveyApp.buildUpdatedInfoDict d none).audioFileName = .nullv ∧
    (SurveyApp.buildUpdatedInfoDict d none).movement = .str d.movement ∧
    (SurveyApp.buildUpdatedInfoDict d none).startTime = .str d.startTime ∧
    (SurveyApp.buildUpdatedInfoDict d none).endTime = .str d.endTime := by
  refine ⟨?_, by simp [SurveyApp.buildOnomatopoeiaData, hnoaudio], rfl,
    by simp [SurveyApp.buildUpdatedInfoDict, hnoaudio], rfl, rfl, rfl, rfl⟩
  unfold SurveyApp.saveOnomatopoeia
  rw [hvalid]
  simp [hnoaudio]

/-- Witness for the amended C7 at the concrete "swoosh" description. -/
theorem claimC7_save_amended_witness :
    SurveyApp.saveOnomatopoeia none true
        ⟨.num 1, .str "Alice", .str "vid1.mp4", "swoosh", "1.20", "2.40",
         .str "2025-01-01T00:00:00Z", 0, false⟩ ⟨[], none, []⟩
      = .ok ⟨[] ++ [SurveyApp.buildUpdatedInfoDict
            ⟨.num 1, .str "Alice", .str "vid1.mp4", "swoosh", "1.20", "2.40",
             .str "2025-01-01T00:00:00Z", 0, false⟩ none],
          some ([] ++ [SurveyApp.buildUpdatedInfoDict
            ⟨.num 1, .str "Alice", .str "vid1.mp4", "swoosh", "1.20", "2.40",
             .str "2025-01-01T00:00:00Z", 0, false⟩ none]),
          [] ++ [SurveyApp.serviceSaveRow (SurveyApp.buildOnomatopoeiaData
            ⟨.num 1, .str "Alice", .str "vid1.mp4", "swoosh", "1.20", "2.40",
             .str "2025-01-01T00:00:00Z", 0, false⟩ none)]⟩ :=
  (claimC7_save_amended none
    ⟨.num 1, .str "Alice", .str "vid1.mp4", "swoosh", "1.20", "2.40",
     .str "2025-01-01T00:00:00Z", 0, false⟩ ⟨[], none, []⟩
    (by decide) rfl).1
